import Mathlib

/-!
Shallow embedding of the TH02 temperature and humidity sensor driver
(HopeRF TH02, library by Charles-Henri Hallard).

The repository ships two variants of the driver:
* an I2C-library variant (file pair using the global variables
  `temperature` and `rh` and the `I2c` transport), and
* a Wire-library variant (using the member fields `_last_temp` and
  `_last_rh` and the `Wire` transport).

Both are embedded below, with the suffixes `_i2c` and `_wire`.
Transport outcomes (bus status codes, available byte counts and the bytes
delivered) are passed as explicit parameters, so every embedded function
is a pure function of the device state and of the transport responses it
consumes.  C float computations are modelled exactly over the rationals.
-/

/-- Register and protocol constants from the TH02 header file. -/
def TH02_STATUS : ℕ := 0

/-- Data high register address. -/
def TH02_DATAh : ℕ := 1

/-- Configuration register address. -/
def TH02_CONFIG : ℕ := 3

/-- Id register address. -/
def TH02_ID : ℕ := 17

/-- Transport error marker returned by the register getters of the
I2C-library variant: all bits set. -/
def TH02_I2C_ERR : ℕ := 0xFF

/-- Sentinel stored in the last-temperature field before any successful
temperature conversion. -/
def TH02_UNINITIALIZED_TEMP : ℤ := 55555

/-- Sentinel stored in the last-humidity field before any successful
humidity conversion. -/
def TH02_UNINITIALIZED_RH : ℤ := 1111

/-- Sentinel returned to callers when a value could not be produced. -/
def TH02_UNDEFINED_VALUE : ℤ := 12345

/-- Timeout threshold of the conversion polling loop, in ticks. -/
def TH02_CONVERSION_TIME_OUT : ℕ := 50

/-- Ready bit of the status register: bit 0 set while converting. -/
def TH02_STATUS_RDY : ℕ := 0x01

/-- Configuration bit: start a conversion. -/
def TH02_CONFIG_START : ℕ := 0x01

/-- Configuration bit: enable the heater. -/
def TH02_CONFIG_HEAT : ℕ := 0x02

/-- Configuration bit: next conversion is a temperature conversion. -/
def TH02_CONFIG_TEMP : ℕ := 0x10

/-- Configuration bit: fast conversion mode. -/
def TH02_CONFIG_FAST : ℕ := 0x20

/-- Humidity linearization coefficient A0, modelled as the exact decimal
value of the C constant -4.7844. -/
def TH02_A0 : ℚ := -47844 / 10000

/-- Humidity linearization coefficient A1, exact decimal of 0.4008. -/
def TH02_A1 : ℚ := 4008 / 10000

/-- Humidity linearization coefficient A2, exact decimal of -0.00393. -/
def TH02_A2 : ℚ := -393 / 100000

/-- Temperature compensation coefficient Q0, exact decimal of 0.1973. -/
def TH02_Q0 : ℚ := 1973 / 10000

/-- Temperature compensation coefficient Q1, exact decimal of 0.00237. -/
def TH02_Q1 : ℚ := 237 / 100000

/-- Retained state of a device handle: the two most recently decoded
measurements, both scaled by 100.  In the I2C-library variant these are
the globals `temperature` and `rh`; in the Wire-library variant the
member fields `_last_temp` and `_last_rh`. -/
structure TH02State where
  last_temp : ℤ
  last_rh : ℤ
deriving DecidableEq

/-- State of a freshly constructed handle: both fields uninitialized. -/
def TH02State.init : TH02State :=
  { last_temp := TH02_UNINITIALIZED_TEMP, last_rh := TH02_UNINITIALIZED_RH }

/-- Embedding of `TH02::roundInt` (identical in both variants): floor of
x plus one half for nonnegative x, ceiling of x minus one half otherwise.
Floats are modelled exactly as rationals. -/
def roundInt (value : ℚ) : ℤ :=
  if 0 ≤ value then ⌊value + 1/2⌋ else ⌈value - 1/2⌉

/-- Truncation toward zero, the effect of the C cast of a float to an
integer type (overflow wrapping not modelled; all uses stay in range). -/
def truncInt (value : ℚ) : ℤ :=
  if 0 ≤ value then ⌊value⌋ else ⌈value⌉

/-- Embedding of `TH02::getStatus` of the I2C-library variant.
`readOk` is whether `I2c.read` returned 0, `avail` the byte count
reported by `I2c.available`, `byte` the byte delivered by `I2c.receive`.
On any failure the function fakes an all-ones status byte. -/
def getStatus_i2c (readOk : Bool) (avail : ℕ) (byte : ℕ) : ℕ :=
  if readOk then
    if avail = 1 then byte else TH02_I2C_ERR
  else TH02_I2C_ERR

/-- Embedding of `TH02::getConfig` of the I2C-library variant, same
transport shape as the status getter. -/
def getConfig_i2c (readOk : Bool) (avail : ℕ) (byte : ℕ) : ℕ :=
  if readOk then
    if avail = 1 then byte else TH02_I2C_ERR
  else TH02_I2C_ERR

/-- Embedding of `TH02::isConverting` of the I2C-library variant: true
exactly when the ready bit of the (possibly faked) status byte is set. -/
def isConverting_i2c (readOk : Bool) (avail : ℕ) (byte : ℕ) : Bool :=
  if getStatus_i2c readOk avail byte &&& TH02_STATUS_RDY = 1 then true else false

/-- Embedding of `TH02::readRegister` of the Wire-library variant.
`cmdRet` is the code returned by `writeCommand` (0 means success),
`avail` the count reported by `Wire.available`, `byte` the byte read.
Returns the pair of the return code and the out parameter, `none` when
the out parameter was never written. -/
def readRegister_wire (cmdRet : ℕ) (avail : ℕ) (byte : ℕ) : ℕ × Option ℕ :=
  if cmdRet = 0 then
    if avail ≠ 1 then (4, none) else (0, some byte)
  else (cmdRet, none)

/-- Embedding of `TH02::isConverting` of the Wire-library variant: the
ready bit is tested only when the status read succeeded; any transport
failure yields `false`. -/
def isConverting_wire (cmdRet : ℕ) (avail : ℕ) (byte : ℕ) : Bool :=
  let r := readRegister_wire cmdRet avail byte
  if r.1 = 0 then
    if r.2.getD 0 &&& TH02_STATUS_RDY = 1 then true else false
  else false

/-- Embedding of `TH02::waitEndConversion` (identical loop in both
variants), with the successive results of `isConverting` supplied by the
oracle `busy` indexed by the value of the counter at the poll.  The
source loops while the device is busy and the counter has not passed the
timeout threshold, incrementing the counter once per tick. -/
def waitLoop (busy : ℕ → Bool) (t : ℕ) : ℕ :=
  if busy t = true ∧ t ≤ TH02_CONVERSION_TIME_OUT then waitLoop busy (t + 1) else t
termination_by TH02_CONVERSION_TIME_OUT + 1 - t
decreasing_by
  simp only [TH02_CONVERSION_TIME_OUT] at *
  omega

/-- Entry point of the polling loop: the counter starts at zero. -/
def waitEndConversion (busy : ℕ → Bool) : ℕ :=
  waitLoop busy 0

/-- Embedding of `TH02::getConversionValue` of the Wire-library variant.
`cmdRet` is the result of the address write for the data registers,
`avail` the count reported by `Wire.available`, `hi` and `lo` the two
data bytes, and `cfgCmdRet`, `cfgAvail`, `cfgByte` the transport
responses consumed by the configuration register read.  Returns the
value returned to the caller together with the updated retained state. -/
def getConversionValue_wire (cmdRet : ℕ) (avail : ℕ) (hi lo : ℕ)
    (cfgCmdRet cfgAvail cfgByte : ℕ) (st : TH02State) : ℤ × TH02State :=
  if cmdRet = 0 then
    if avail = 2 then
      let raw : ℕ := (hi <<< 8) ||| lo
      let cfg := readRegister_wire cfgCmdRet cfgAvail cfgByte
      if cfg.1 = 0 then
        let config := cfg.2.getD 0
        if config &&& TH02_CONFIG_TEMP ≠ 0 then
          let s : ℕ := raw >>> 2 * 100 / 32
          let result : ℤ := if 5000 ≤ s then (s : ℤ) - 5000 else -((s : ℤ) - 5000)
          (roundInt ((result : ℚ) / 10), { st with last_temp := result })
        else
          let u : ℕ := raw >>> 4 * 100 / 16
          let result : ℤ := (u : ℤ) - 2400
          (roundInt ((result : ℚ) / 10), { st with last_rh := result })
      else (TH02_UNDEFINED_VALUE, st)
    else (TH02_UNDEFINED_VALUE, st)
  else (TH02_UNDEFINED_VALUE, st)

/-- Embedding of `TH02::getConversionValue` of the I2C-library variant.
A failed or short data read leaves the raw word at zero and the function
keeps going; a configuration read failure returns 0 to the caller. -/
def getConversionValue_i2c (readOk : Bool) (avail : ℕ) (hi lo : ℕ)
    (cfgOk : Bool) (cfgAvail cfgByte : ℕ) (st : TH02State) : ℤ × TH02State :=
  let raw : ℕ := if readOk ∧ avail = 2 then (hi <<< 8) ||| lo else 0
  let config := getConfig_i2c cfgOk cfgAvail cfgByte
  if config = TH02_I2C_ERR then (0, st)
  else if config &&& TH02_CONFIG_TEMP ≠ 0 then
    let s : ℕ := raw >>> 2 * 100 / 32
    let result : ℤ := if 5000 ≤ s then (s : ℤ) - 5000 else -((s : ℤ) - 5000)
    (roundInt ((result : ℚ) / 10), { st with last_temp := result })
  else
    let u : ℕ := raw >>> 4 * 100 / 16
    let result : ℤ := (u : ℤ) - 2400
    (roundInt ((result : ℚ) / 10), { st with last_rh := result })

/-- Embedding of `TH02::getConpensatedRH` of the Wire-library variant.
The return variable starts at the undefined sentinel and is overwritten
only when a humidity was previously decoded. -/
def getConpensatedRH_wire (st : TH02State) (round : Bool) : ℤ :=
  if st.last_rh ≠ TH02_UNINITIALIZED_RH then
    let rhvalue : ℚ := (st.last_rh : ℚ) / 100
    let rhlinear : ℚ :=
      rhvalue - (rhvalue * rhvalue * TH02_A2 + rhvalue * TH02_A1 + TH02_A0)
    let rhvalue2 : ℚ :=
      if st.last_temp ≠ TH02_UNINITIALIZED_TEMP then
        rhlinear + ((st.last_temp : ℚ) / 100 - 30) * (rhlinear * TH02_Q1 + TH02_Q0)
      else rhlinear
    let result : ℚ := rhvalue2 * 100
    if round then roundInt (result / 10) else truncInt result
  else TH02_UNDEFINED_VALUE

/-- Embedding of `TH02::getConpensatedRH` of the I2C-library variant.
When no humidity was ever decoded it returns the retained humidity field
itself, that is the uninitialized sentinel. -/
def getConpensatedRH_i2c (st : TH02State) (round : Bool) : ℤ :=
  if st.last_rh = TH02_UNINITIALIZED_RH then st.last_rh
  else
    let rhvalue : ℚ := (st.last_rh : ℚ) / 100
    let rhlinear : ℚ :=
      rhvalue - (rhvalue * rhvalue * TH02_A2 + rhvalue * TH02_A1 + TH02_A0)
    let rhvalue2 : ℚ :=
      if st.last_temp ≠ TH02_UNINITIALIZED_TEMP then
        rhlinear + ((st.last_temp : ℚ) / 100 - 30) * (rhlinear * TH02_Q1 + TH02_Q0)
      else rhlinear
    let result : ℚ := rhvalue2 * 100
    if round then roundInt (result / 10) else truncInt result

/-- Embedding of `TH02::getLastRawRH` (identical in both variants): a
pure accessor of the retained humidity field.  It consumes no transport
responses, which reflects that the source body performs no bus
transaction, and it returns the state unchanged. -/
def getLastRawRH (st : TH02State) : ℤ × TH02State :=
  (st.last_rh, st)

/-- Embedding of `TH02::getLastRawTemp` (identical in both variants): a
pure accessor of the retained temperature field, no bus activity. -/
def getLastRawTemp (st : TH02State) : ℤ × TH02State :=
  (st.last_temp, st)

/-- Modelled from the spec: the temperature decoding formula as the spec
states it, with s the shifted and scaled raw word and the asymmetric
sign-flip branch below 5000. -/
def tempDecodeSpec (r : ℕ) : ℤ :=
  let s : ℕ := r >>> 2 * 100 / 32
  if 5000 ≤ s then (s : ℤ) - 5000 else -((s : ℤ) - 5000)

/-- Modelled from the spec: the humidity decoding formula as the spec
states it. -/
def rhDecodeSpec (r : ℕ) : ℤ :=
  ((r >>> 4 * 100 / 16 : ℕ) : ℤ) - 2400

/-- Modelled from the spec: the compensated humidity computation as the
spec and claim state it, for an initialized humidity value, with the
quadratic linearity correction, the optional temperature term, the
scaling by 100, and the round or truncate alternative. -/
def compensatedRHSpec (lastTempCenti lastRHCenti : ℤ) (roundToOneDigit : Bool) : ℤ :=
  let h : ℚ := (lastRHCenti : ℚ) / 100
  let hLinear : ℚ := h - (TH02_A2 * h ^ 2 + TH02_A1 * h + TH02_A0)
  let hCorrected : ℚ :=
    if lastTempCenti ≠ TH02_UNINITIALIZED_TEMP then
      hLinear + ((lastTempCenti : ℚ) / 100 - 30) * (TH02_Q1 * hLinear + TH02_Q0)
    else hLinear
  let result : ℚ := hCorrected * 100
  if roundToOneDigit then roundInt (result / 10) else truncInt result

/-!
Theorems.  Each claim theorem is preceded by a doc comment naming the
claim it settles.
-/

/-- Invariant of the polling loop, proved by downward induction on the
remaining tick budget: the loop result never goes below the starting
counter, never exceeds 51, every tick strictly before the result saw a
busy device, and the loop stopped either on a clear ready bit or on the
counter passing the timeout threshold. -/
lemma waitLoop_invariant (busy : ℕ → Bool) :
    ∀ n t, 51 - t ≤ n → t ≤ 51 →
      t ≤ waitLoop busy t ∧ waitLoop busy t ≤ 51 ∧
      (∀ u, t ≤ u → u < waitLoop busy t → busy u = true) ∧
      (busy (waitLoop busy t) = false ∨ waitLoop busy t = 51) := by
  intro n
  induction n with
  | zero =>
    intro t h1 h2
    have ht : t = 51 := by omega
    subst ht
    have hstop : waitLoop busy 51 = 51 := by
      rw [waitLoop]
      exact if_neg (fun hc => by simp [TH02_CONVERSION_TIME_OUT] at hc)
    refine ⟨le_of_eq hstop.symm, le_of_eq hstop, ?_, Or.inr hstop⟩
    intro u hu1 hu2
    rw [hstop] at hu2
    omega
  | succ n ih =>
    intro t h1 h2
    by_cases hc : busy t = true ∧ t ≤ TH02_CONVERSION_TIME_OUT
    · have heq : waitLoop busy t = waitLoop busy (t + 1) := by
        rw [waitLoop]
        exact if_pos hc
      have ht50 : t ≤ 50 := by simpa [TH02_CONVERSION_TIME_OUT] using hc.2
      obtain ⟨ih1, ih2, ih3, ih4⟩ := ih (t + 1) (by omega) (by omega)
      refine ⟨?_, ?_, ?_, ?_⟩
      · rw [heq]; omega
      · rw [heq]; exact ih2
      · intro u hu1 hu2
        rw [heq] at hu2
        rcases Nat.eq_or_lt_of_le hu1 with h | h
        · rw [← h]; exact hc.1
        · exact ih3 u h hu2
      · rw [heq]; exact ih4
    · have heq : waitLoop busy t = t := by
        rw [waitLoop]
        exact if_neg hc
      refine ⟨le_of_eq heq.symm, by omega, ?_, ?_⟩
      · intro u hu1 hu2; rw [heq] at hu2; omega
      · rw [heq]
        cases hb : busy t with
        | false => exact Or.inl rfl
        | true =>
          right
          have : ¬ t ≤ TH02_CONVERSION_TIME_OUT := fun hle => hc ⟨hb, hle⟩
          simp [TH02_CONVERSION_TIME_OUT] at this
          omega

/-- C1: in the Wire-library variant, if the data-address write fails, or
the two-byte data read delivers a wrong byte count, or the configuration
register read fails, then getConversionValue returns the undefined
sentinel 12345 and the retained state is returned unchanged, so no
partial update of retained state occurs on any failure path. -/
theorem getConversionValue_wire_failure_returns_undefined
    (cmdRet avail hi lo cfgCmdRet cfgAvail cfgByte : ℕ) (st : TH02State)
    (h : cmdRet ≠ 0 ∨ avail ≠ 2 ∨ (readRegister_wire cfgCmdRet cfgAvail cfgByte).1 ≠ 0) :
    getConversionValue_wire cmdRet avail hi lo cfgCmdRet cfgAvail cfgByte st
      = (TH02_UNDEFINED_VALUE, st) := by
  rcases h with h | h | h <;> simp [getConversionValue_wire, h]

/-- C1 witness: concrete failing data-address write. -/
theorem getConversionValue_wire_failure_returns_undefined_witness :
    getConversionValue_wire 1 2 0 0 0 1 0 TH02State.init
      = (TH02_UNDEFINED_VALUE, TH02State.init) :=
  getConversionValue_wire_failure_returns_undefined 1 2 0 0 0 1 0 TH02State.init
    (Or.inl (by decide))

/-- C1 counterexample: in the I2C-library variant a configuration read
failure makes getConversionValue return 0, not the undefined sentinel,
and a failed data read is not detected: the function decodes a zero raw
word and overwrites the retained temperature field on that failure
path. -/
theorem getConversionValue_i2c_failure_not_undefined_cex :
    (getConversionValue_i2c true 2 12 128 false 0 0 TH02State.init).1 = 0 ∧
    (0 : ℤ) ≠ TH02_UNDEFINED_VALUE ∧
    (getConversionValue_i2c false 0 0 0 true 1 TH02_CONFIG_TEMP TH02State.init).2.last_temp
      = 5000 ∧
    (5000 : ℤ) ≠ TH02State.init.last_temp := by
  refine ⟨by decide, by decide, by decide, by decide⟩

/-- C2: for every raw temperature word r up to 4095, delivered as a high
and a low byte over a successful transport with the temperature bit set
in the configuration register, getConversionValue stores into the
retained temperature field exactly the value of the spec formula, that
is s minus 5000 when s is at least 5000 and the negation of s minus 5000
otherwise, where s is the raw word shifted right by two, multiplied by
100 and integer-divided by 32; the humidity field is untouched. -/
theorem getConversionValue_wire_temperature_decode
    (r hi lo cfgByte : ℕ) (st : TH02State)
    (hcomb : (hi <<< 8) ||| lo = r) (hr : r ≤ 4095)
    (hcfg : cfgByte &&& TH02_CONFIG_TEMP ≠ 0) :
    (getConversionValue_wire 0 2 hi lo 0 1 cfgByte st).2.last_temp = tempDecodeSpec r ∧
    (getConversionValue_wire 0 2 hi lo 0 1 cfgByte st).2.last_rh = st.last_rh := by
  subst hcomb
  simp [getConversionValue_wire, readRegister_wire, tempDecodeSpec, hcfg]

/-- C2 witness: the raw word 3200 delivered as bytes 12 and 128. -/
theorem getConversionValue_wire_temperature_decode_witness :
    (getConversionValue_wire 0 2 12 128 0 1 16 TH02State.init).2.last_temp
      = tempDecodeSpec 3200 ∧
    (getConversionValue_wire 0 2 12 128 0 1 16 TH02State.init).2.last_rh
      = TH02State.init.last_rh :=
  getConversionValue_wire_temperature_decode 3200 12 128 16 TH02State.init
    (by decide) (by decide) (by decide)

/-- C3: in the Wire-library variant, whenever the retained humidity
field still holds the uninitialized sentinel, getConpensatedRH returns
the undefined sentinel 12345, for either value of the rounding flag. -/
theorem getConpensatedRH_wire_uninitialized_returns_undefined
    (st : TH02State) (round : Bool)
    (h : st.last_rh = TH02_UNINITIALIZED_RH) :
    getConpensatedRH_wire st round = TH02_UNDEFINED_VALUE := by
  simp [getConpensatedRH_wire, h]

/-- C3 witness: the freshly constructed handle, both flag values. -/
theorem getConpensatedRH_wire_uninitialized_returns_undefined_witness :
    getConpensatedRH_wire TH02State.init true = TH02_UNDEFINED_VALUE ∧
    getConpensatedRH_wire TH02State.init false = TH02_UNDEFINED_VALUE :=
  ⟨getConpensatedRH_wire_uninitialized_returns_undefined TH02State.init true (by decide),
   getConpensatedRH_wire_uninitialized_returns_undefined TH02State.init false (by decide)⟩

/-- C3 counterexample: in the I2C-library variant the same calls return
the uninitialized humidity sentinel 1111 itself, which differs from the
undefined sentinel 12345 the claim names. -/
theorem getConpensatedRH_i2c_uninitialized_returns_1111_cex :
    getConpensatedRH_i2c TH02State.init true = 1111 ∧
    getConpensatedRH_i2c TH02State.init false = 1111 ∧
    (1111 : ℤ) ≠ TH02_UNDEFINED_VALUE := by
  refine ⟨by decide, by decide, by decide⟩

/-- C4: in the I2C-library variant, every status register read that
fails at the transport level, by a nonzero bus status or by a wrong
delivered byte count, makes isConverting report true, because the
faked all-ones status byte has the ready bit set. -/
theorem isConverting_i2c_read_failure_reports_busy
    (readOk : Bool) (avail byte : ℕ)
    (h : readOk = false ∨ avail ≠ 1) :
    isConverting_i2c readOk avail byte = true := by
  have h255 : (255 : ℕ) &&& 1 = 1 := by decide
  rcases h with h | h
  · subst h
    simp [isConverting_i2c, getStatus_i2c, TH02_I2C_ERR, TH02_STATUS_RDY, h255]
  · cases readOk <;>
      simp [isConverting_i2c, getStatus_i2c, TH02_I2C_ERR, TH02_STATUS_RDY, h, h255]

/-- C4 witness: a failed bus read. -/
theorem isConverting_i2c_read_failure_reports_busy_witness :
    isConverting_i2c false 0 0 = true :=
  isConverting_i2c_read_failure_reports_busy false 0 0 (Or.inl rfl)

/-- C4 counterexample: in the Wire-library variant a transport-level
status read failure makes isConverting report false, not true, even
when the device byte would have shown the busy bit. -/
theorem isConverting_wire_read_failure_reports_idle_cex :
    (readRegister_wire 2 1 1).1 ≠ 0 ∧ isConverting_wire 2 1 1 = false := by
  refine ⟨by decide, by decide⟩

/-- C5: waitEndConversion polls the busy oracle once per tick while
incrementing the counter, its result never exceeds 51, every tick
strictly before the result saw a busy device, the loop stopped either
because the ready bit cleared or because the counter passed the timeout
threshold of 50, and when the busy bit never clears the function
terminates with exactly 51. -/
theorem waitEndConversion_timeout_spec (busy : ℕ → Bool) :
    waitEndConversion busy ≤ 51 ∧
    (∀ t, t < waitEndConversion busy → busy t = true) ∧
    (busy (waitEndConversion busy) = false ∨ waitEndConversion busy = 51) ∧
    ((∀ t, busy t = true) → waitEndConversion busy = 51) := by
  obtain ⟨h1, h2, h3, h4⟩ := waitLoop_invariant busy 51 0 (by omega) (by omega)
  simp only [waitEndConversion]
  refine ⟨h2, fun t ht => h3 t (by omega) ht, h4, fun hall => ?_⟩
  rcases h4 with h | h
  · rw [hall] at h; cases h
  · exact h

/-- C5 witness: a status register whose busy bit never clears yields
exactly 51. -/
theorem waitEndConversion_timeout_spec_witness :
    waitEndConversion (fun _ => true) = 51 :=
  (waitEndConversion_timeout_spec (fun _ => true)).2.2.2 (fun _ => rfl)

/-- C6: for every raw humidity word r up to 16383, delivered as a high
and a low byte over a successful transport with the temperature bit
clear in the configuration register, getConversionValue stores into the
retained humidity field exactly the raw word shifted right by four,
multiplied by 100, integer-divided by 16 and lessened by 2400; the
temperature field is untouched. -/
theorem getConversionValue_wire_humidity_decode
    (r hi lo cfgByte : ℕ) (st : TH02State)
    (hcomb : (hi <<< 8) ||| lo = r) (hr : r ≤ 16383)
    (hcfg : cfgByte &&& TH02_CONFIG_TEMP = 0) :
    (getConversionValue_wire 0 2 hi lo 0 1 cfgByte st).2.last_rh = rhDecodeSpec r ∧
    (getConversionValue_wire 0 2 hi lo 0 1 cfgByte st).2.last_temp = st.last_temp := by
  subst hcomb
  simp [getConversionValue_wire, readRegister_wire, rhDecodeSpec, hcfg]

/-- C6 witness: the raw word 4660 delivered as bytes 18 and 52. -/
theorem getConversionValue_wire_humidity_decode_witness :
    (getConversionValue_wire 0 2 18 52 0 1 0 TH02State.init).2.last_rh
      = rhDecodeSpec 4660 ∧
    (getConversionValue_wire 0 2 18 52 0 1 0 TH02State.init).2.last_temp
      = TH02State.init.last_temp :=
  getConversionValue_wire_humidity_decode 4660 18 52 0 TH02State.init
    (by decide) (by decide) (by decide)

/-- C7: for every device state with an initialized humidity value,
getConpensatedRH computes exactly the compensation pipeline the claim
states, here phrased as a second definition written from the words of
the spec: the quadratic linearity correction on the humidity restored to
percent, the additive temperature term exactly when a temperature was
decoded, the scaling by 100, and finally round-half-away-from-zero of a
tenth of the result when rounding is requested and truncation toward
zero otherwise. -/
theorem getConpensatedRH_wire_refines_compensation_spec
    (st : TH02State) (round : Bool)
    (h : st.last_rh ≠ TH02_UNINITIALIZED_RH) :
    getConpensatedRH_wire st round = compensatedRHSpec st.last_temp st.last_rh round := by
  by_cases ht : st.last_temp = TH02_UNINITIALIZED_TEMP <;> cases round <;>
    simp only [getConpensatedRH_wire, compensatedRHSpec, h, ht, ne_eq,
      not_false_eq_true, if_true, if_false, ite_true, ite_false, not_true_eq_false,
      Bool.false_eq_true, if_pos, if_neg] <;>
    · congr 1
      ring

/-- C7 witness: humidity 45.00 percent with the temperature still
uninitialized, truncating path. -/
theorem getConpensatedRH_wire_refines_compensation_spec_witness :
    getConpensatedRH_wire ⟨55555, 4500⟩ false = compensatedRHSpec 55555 4500 false :=
  getConpensatedRH_wire_refines_compensation_spec ⟨55555, 4500⟩ false (by decide)

/-- C8: roundInt returns the floor of x plus one half for nonnegative x
and the ceiling of x minus one half for negative x, is an odd function,
so half-integer boundaries round away from zero, and in particular five
halves rounds to 3 and minus five halves rounds to minus 3. -/
theorem roundInt_half_away_from_zero (q : ℚ) :
    (0 ≤ q → roundInt q = ⌊q + 1/2⌋) ∧
    (q < 0 → roundInt q = ⌈q - 1/2⌉) ∧
    roundInt (-q) = -roundInt q ∧
    roundInt (5/2) = 3 ∧ roundInt (-(5/2)) = -3 := by
  refine ⟨fun h => if_pos h, fun h => if_neg (not_le.mpr h), ?_, ?_, ?_⟩
  · rcases lt_trichotomy q 0 with h | h | h
    · rw [roundInt, if_pos (by linarith : (0:ℚ) ≤ -q), roundInt, if_neg (not_le.mpr h)]
      rw [show -q + 1/2 = -(q - 1/2) by ring, Int.floor_neg]
    · subst h
      norm_num [roundInt]
    · rw [roundInt, if_neg (not_le.mpr (by linarith : -q < 0)), roundInt,
        if_pos (le_of_lt h)]
      rw [show -q - 1/2 = -(q + 1/2) by ring, Int.ceil_neg]
  · rw [roundInt, if_pos (by norm_num : (0:ℚ) ≤ 5/2),
      show (5/2 + 1/2 : ℚ) = 3 by norm_num]
    norm_num
  · rw [roundInt, if_neg (by norm_num : ¬ (0:ℚ) ≤ -(5/2)),
      show (-(5/2) - 1/2 : ℚ) = ((-3 : ℤ) : ℚ) by norm_num]
    exact Int.ceil_intCast _

/-- C8 witness: the half-integer boundary five halves. -/
theorem roundInt_half_away_from_zero_witness :
    roundInt (5/2) = ⌊(5/2 + 1/2 : ℚ)⌋ ∧ roundInt (5/2) = 3 ∧ roundInt (-(5/2)) = -3 :=
  ⟨(roundInt_half_away_from_zero (5/2)).1 (by norm_num),
   (roundInt_half_away_from_zero (5/2)).2.2.2.1,
   (roundInt_half_away_from_zero (5/2)).2.2.2.2⟩

/-- C9: for every pair of data bytes, a successful conversion never
stores a sentinel into the field it updates: the temperature decode
never produces the uninitialized temperature sentinel 55555 and the
humidity decode never produces the uninitialized humidity sentinel
1111, because the integer decode formulas cannot reach those values. -/
theorem getConversionValue_wire_never_stores_sentinel
    (hi lo cfgByte : ℕ) (st : TH02State)
    (_hhi : hi < 256) (_hlo : lo < 256) :
    (cfgByte &&& TH02_CONFIG_TEMP ≠ 0 →
      (getConversionValue_wire 0 2 hi lo 0 1 cfgByte st).2.last_temp
        ≠ TH02_UNINITIALIZED_TEMP) ∧
    (cfgByte &&& TH02_CONFIG_TEMP = 0 →
      (getConversionValue_wire 0 2 hi lo 0 1 cfgByte st).2.last_rh
        ≠ TH02_UNINITIALIZED_RH) := by
  constructor
  · intro hcfg
    simp [getConversionValue_wire, readRegister_wire, hcfg, TH02_UNINITIALIZED_TEMP]
    generalize (hi <<< 8 ||| lo) >>> 2 = m
    split <;> omega
  · intro hcfg
    simp [getConversionValue_wire, readRegister_wire, hcfg, TH02_UNINITIALIZED_RH]
    generalize (hi <<< 8 ||| lo) >>> 4 = m
    omega

/-- C9 witness: a zero raw word on the temperature path stores 5000,
which is not the sentinel. -/
theorem getConversionValue_wire_never_stores_sentinel_witness :
    (getConversionValue_wire 0 2 0 0 0 1 16 TH02State.init).2.last_temp
      ≠ TH02_UNINITIALIZED_TEMP :=
  (getConversionValue_wire_never_stores_sentinel 0 0 16 TH02State.init
    (by decide) (by decide)).1 (by decide)

/-- C10: the raw accessors return the retained centi-scaled fields
verbatim, sentinel included, leave the device state unchanged, consume
no transport responses, and two consecutive calls with no intervening
conversion return identical values. -/
theorem getLastRaw_accessors_pure (st : TH02State) :
    getLastRawRH st = (st.last_rh, st) ∧ getLastRawTemp st = (st.last_temp, st) ∧
    (getLastRawRH (getLastRawRH st).2).1 = (getLastRawRH st).1 ∧
    (getLastRawTemp (getLastRawTemp st).2).1 = (getLastRawTemp st).1 :=
  ⟨rfl, rfl, rfl, rfl⟩
